import Mathlib

/-!
Shallow embedding of `src/global_planner_plugins/a_star_planner/a_star_planner_gpp.cpp`
(class `cb_global_planner::AStarPlannerGPP`).

External collaborators (costmap, tf transform provider, constraint evaluator,
A* search primitive) are modelled as an explicit environment record `Env` of
pure functions, following the contracts in the design document:
* a costmap provides sizes, `worldToMap` (which can fail), `mapToWorld` and
  per-cell costs;
* the transform provider returns an optional rigid transform (modelled as an
  arbitrary function on 2-D points) for a (target frame, source frame) pair;
  `none` models a thrown `tf::TransformException`;
* the constraint evaluator is the pair `ceInit` / `ceEval`;
* the search primitive `planFn` takes the goal cell coordinate lists, the
  start cell, and the boolean flag of the second overload, and returns the
  `plan_xs` / `plan_ys` output vectors.

Machine `unsigned int` cell indices are modelled as `Nat` (no overflow is
reachable for grid-sized values), `double` world coordinates as `Rat`, and the
`int` entries of `plan_xs` / `plan_ys` as `Int`.
-/

namespace CBNav

/-- A 2-D point (`tf::Point` with `z = 0` throughout the file). -/
abbrev Point := Rat × Rat

/-- The `cb_planner::PositionConstraint` message: a frame id and a constraint
specification string. -/
structure PositionConstraint where
  frame : String
  constraint : String
deriving DecidableEq, Repr

/-- Pose orientation as produced by `planToWorld`. `yawTo dy dx` stands for
`tf::createQuaternionMsgFromYaw(atan2(dy, dx))`; `defaultO` is the
default-constructed `geometry_msgs::Quaternion` left untouched. The real
trigonometry is irrelevant to the claims, which only compare which branch
produced the orientation and with which displacement. -/
inductive Orient where
  | defaultO : Orient
  | yawTo (dy dx : Rat) : Orient
deriving DecidableEq, Repr

/-- A `geometry_msgs::PoseStamped` restricted to the fields the planner
writes or reads: header stamp and frame, 2-D position, orientation. -/
structure PoseStamped where
  stamp : Rat
  frame_id : String
  px : Rat
  py : Rat
  orientation : Orient
deriving DecidableEq, Repr

/-- Value of `costmap_2d::LETHAL_OBSTACLE`. -/
def LETHAL_OBSTACLE : Nat := 254

/-- Value of `costmap_2d::INSCRIBED_INFLATED_OBSTACLE`. -/
def INSCRIBED_INFLATED_OBSTACLE : Nat := 253

/-- The costmap collaborator (`costmap_2d::Costmap2D`), interface only. -/
structure Costmap where
  sizeX : Nat
  sizeY : Nat
  worldToMap : Rat → Rat → Option (Nat × Nat)
  mapToWorld : Int → Int → Rat × Rat
  getCost : Nat → Nat → Nat

/-- The per-call environment: every external collaborator the planner talks
to during one `makePlan` call. -/
structure Env where
  costmap : Costmap
  /-- Value of `global_costmap_ros_->getGlobalFrameID()`. -/
  globalFrame : String
  /-- Lookup `tf_->lookupTransform(target, source, ros::Time(0), out)`; `none`
  models a thrown `tf::TransformException`. -/
  lookupTransform : String → String → Option (Point → Point)
  /-- The value of a default-constructed `tf::StampedTransform`. The C++
  default constructor leaves the transform uninitialized, so this is an
  arbitrary, unspecified transform supplied by the environment. -/
  defaultTf : Point → Point
  /-- Call of `ConstraintEvaluator::init(spec)`. -/
  ceInit : String → Bool
  /-- Call of `ConstraintEvaluator::evaluate(x, y)` for the given spec string. -/
  ceEval : String → Rat → Rat → Bool
  /-- Call of `AStarPlanner::plan(mx_goal, my_goal, mx_start, my_start, plan_xs,
  plan_ys, flag)`: goal cell lists, start cell, flag; returns the output
  path vectors. Black-box search primitive. -/
  planFn : List Nat → List Nat → Nat → Nat → Bool → List Int × List Int
  /-- Value of `ros::Time::now()` at this call. -/
  now : Rat

/-- The member state of one `AStarPlannerGPP` instance. -/
structure PlannerState where
  initialized : Bool
  position_constraint : PositionConstraint
  goal_positions_in_constraint_frame : List Point
deriving DecidableEq, Repr

/-- Modelled from the spec: `constraintChanged` is declared in the plugin
header, which is not among the sources; the design document states that two
constraints are equal iff both fields match (value equality, not identity),
and that the region rebuild is triggered exactly on constraint-value change. -/
def constraintChanged (st : PlannerState) (pc : PositionConstraint) : Bool :=
  decide (pc ≠ st.position_constraint)

/-- Embeds `AStarPlannerGPP::updateConstraintPositionsInConstraintFrame`.

Returns the success flag together with the value of the member cache
`goal_positions_in_constraint_frame_` after the call. The C++ body clears the
cache first (line 111), so both failure exits (transform lookup throwing,
`ce.init` returning false) leave the cache empty. On success the cache holds,
in row-major cell order (outer loop over `i < sizeX`, inner over `j < sizeY`),
every transformed cell-center point satisfying the constraint predicate. -/
def updateConstraintPositionsInConstraintFrame (env : Env)
    (position_constraint : PositionConstraint) : Bool × List Point :=
  match env.lookupTransform position_constraint.frame env.globalFrame with
  | none => (false, [])
  | some constraint_to_world_tf =>
    if env.ceInit position_constraint.constraint then
      (true,
        (List.range env.costmap.sizeX).flatMap fun i =>
          (List.range env.costmap.sizeY).filterMap fun j =>
            let w := env.costmap.mapToWorld (Int.ofNat i) (Int.ofNat j)
            let pc := constraint_to_world_tf w
            if env.ceEval position_constraint.constraint pc.1 pc.2 then
              some pc
            else
              none)
    else
      (false, [])

/-- The loop body of `AStarPlannerGPP::calculateMapConstraintArea`, iterated
over the cached region points: transform the point to the world frame with
`wtf`, convert world → map, drop the point if the conversion fails or the
cell carries an impassable cost, and otherwise push the cell coordinates and
the world point. Returns `(mx, my, goal_positions)`. -/
def projectPoints (env : Env) (wtf : Point → Point) :
    List Point → List Nat × List Nat × List Point
  | [] => ([], [], [])
  | p :: rest =>
    let pw := wtf p
    match env.costmap.worldToMap pw.1 pw.2 with
    | none => projectPoints env wtf rest
    | some (x, y) =>
      let goal_cell_cost := env.costmap.getCost x y
      if goal_cell_cost = INSCRIBED_INFLATED_OBSTACLE ∨
          goal_cell_cost = LETHAL_OBSTACLE then
        projectPoints env wtf rest
      else
        let r := projectPoints env wtf rest
        (x :: r.1, y :: r.2.1, pw :: r.2.2)

/-- Embeds `AStarPlannerGPP::calculateMapConstraintArea`.

The C++ declares `tf::StampedTransform world_to_constraint_tf;`, then
try-assigns it from `lookupTransform(globalFrame, constraint frame)`. A
thrown `tf::TransformException` is caught and only logged: execution falls
through to the projection loop with the still default-constructed — i.e.
uninitialized — transform, modelled by `env.defaultTf`. -/
def calculateMapConstraintArea (env : Env) (st : PlannerState) :
    List Nat × List Nat × List Point :=
  let world_to_constraint_tf :=
    match env.lookupTransform env.globalFrame st.position_constraint.frame with
    | some t => t
    | none => env.defaultTf
  projectPoints env world_to_constraint_tf st.goal_positions_in_constraint_frame

/-- Lookahead heading of `planToWorld`: the world displacement from cell `i`
to cell `i + 5`, fed to `atan2` (y component first, matching the C++ call). -/
def lookaheadYaw (env : Env) (xs ys : List Int) (i : Nat) : Orient :=
  let w1 := env.costmap.mapToWorld (xs.getD i 0) (ys.getD i 0)
  let w2 := env.costmap.mapToWorld (xs.getD (i + 5) 0) (ys.getD (i + 5) 0)
  Orient.yawTo (w2.2 - w1.2) (w2.1 - w1.1)

/-- Orientation assigned to `plan[i]` by the loop of `planToWorld`:
* `i + 5 < n` (a lookahead cell exists): heading toward cell `i + 5`;
* otherwise, if `n > 5`: copy `plan[i-1].pose.orientation` (already written
  by the previous iteration; in this regime `i ≥ 1`, since `n > 5` puts
  `i = 0` in the first branch);
* otherwise: the orientation stays default-constructed. -/
def orientAt (env : Env) (xs ys : List Int) : Nat → Orient
  | 0 =>
    if 0 + 5 < xs.length then lookaheadYaw env xs ys 0
    else Orient.defaultO
  | i + 1 =>
    if i + 1 + 5 < xs.length then lookaheadYaw env xs ys (i + 1)
    else if 5 < xs.length then orientAt env xs ys i
    else Orient.defaultO

/-- Embeds `AStarPlannerGPP::planToWorld`: one stamped pose per input cell, the
position being the cell center in world coordinates, orientation as in
`orientAt`. -/
def planToWorld (env : Env) (plan_xs plan_ys : List Int) : List PoseStamped :=
  (List.range plan_xs.length).map fun i =>
    let w := env.costmap.mapToWorld (plan_xs.getD i 0) (plan_ys.getD i 0)
    { stamp := env.now
      frame_id := env.globalFrame
      px := w.1
      py := w.2
      orientation := orientAt env plan_xs plan_ys i }

/-- Embeds `AStarPlannerGPP::checkPlan`: scan the poses in order; a pose whose
world → map conversion succeeds on a cell with an impassable cost makes the
whole plan invalid; poses whose conversion fails are skipped. -/
def checkPlan (env : Env) : List PoseStamped → Bool
  | [] => true
  | p :: rest =>
    match env.costmap.worldToMap p.px p.py with
    | some (mx, my) =>
      let cost := env.costmap.getCost mx my
      if cost = INSCRIBED_INFLATED_OBSTACLE ∨ cost = LETHAL_OBSTACLE then
        false
      else
        checkPlan env rest
    | none => checkPlan env rest

/-- Result of one `makePlan` call: the boolean return value, the planner
state after the call, the values of the in-out arguments `plan` and
`goal_positions` on return, and instrumentation: the goal cell lists
computed by `calculateMapConstraintArea` (empty when that point is not
reached), the final cell path, and invocation counters for the region
rebuild, the per-call projection and the search primitive. -/
structure MakePlanResult where
  ok : Bool
  state : PlannerState
  plan : List PoseStamped
  goal_positions : List Point
  mxGoal : List Nat
  myGoal : List Nat
  planXs : List Int
  planYs : List Int
  rebuildCalls : Nat
  projectCalls : Nat
  searchCalls : Nat
deriving DecidableEq, Repr

/-- The tail of `makePlan` from the `calculateMapConstraintArea` call on
(source lines 57–103): project the cached region, fail if no goal cell is
left, otherwise run the forward search, on an empty result rerun once from
the index-midpoint of the goal cell set toward the start with the flag set
and reverse, then materialize and succeed iff the world plan is non-empty. -/
def makePlanSearch (env : Env) (st : PlannerState) (mx_start my_start : Nat)
    (rebuildCalls : Nat) : MakePlanResult :=
  let area := calculateMapConstraintArea env st
  let mx_goal := area.1
  let my_goal := area.2.1
  let goal_positions := area.2.2
  if mx_goal = [] then
    { ok := false, state := st, plan := [], goal_positions := goal_positions
      mxGoal := mx_goal, myGoal := my_goal, planXs := [], planYs := []
      rebuildCalls := rebuildCalls, projectCalls := 1, searchCalls := 0 }
  else
    let fwd := env.planFn mx_goal my_goal mx_start my_start false
    if fwd.1 = [] then
      -- Try best heuristics path from the other way around
      let mx_start_new := mx_goal.getD (mx_goal.length / 2) 0
      let my_start_new := my_goal.getD (my_goal.length / 2) 0
      let bwd := env.planFn [mx_start] [my_start] mx_start_new my_start_new true
      let plan_xs := bwd.1.reverse
      let plan_ys := bwd.2.reverse
      let plan := planToWorld env plan_xs plan_ys
      { ok := !plan.isEmpty, state := st, plan := plan
        goal_positions := goal_positions
        mxGoal := mx_goal, myGoal := my_goal, planXs := plan_xs, planYs := plan_ys
        rebuildCalls := rebuildCalls, projectCalls := 1, searchCalls := 2 }
    else
      let plan := planToWorld env fwd.1 fwd.2
      { ok := !plan.isEmpty, state := st, plan := plan
        goal_positions := goal_positions
        mxGoal := mx_goal, myGoal := my_goal, planXs := fwd.1, planYs := fwd.2
        rebuildCalls := rebuildCalls, projectCalls := 1, searchCalls := 1 }

/-- Embeds `AStarPlannerGPP::makePlan`. Takes the caller's values of the in-out
arguments `plan` and `goal_positions` (they are cleared right after the
initialization check, so only the uninitialized exit returns them as
received). -/
def makePlan (env : Env) (st : PlannerState) (start : Point)
    (position_constraint : PositionConstraint)
    (planIn : List PoseStamped) (goalIn : List Point) : MakePlanResult :=
  if !st.initialized then
    { ok := false, state := st, plan := planIn, goal_positions := goalIn
      mxGoal := [], myGoal := [], planXs := [], planYs := []
      rebuildCalls := 0, projectCalls := 0, searchCalls := 0 }
  else
    -- plan.clear(); goal_positions.clear()
    -- If nothing specified, do nothing :)
    if position_constraint.frame = "" ∧ position_constraint.constraint = "" then
      { ok := false, state := st, plan := [], goal_positions := []
        mxGoal := [], myGoal := [], planXs := [], planYs := []
        rebuildCalls := 0, projectCalls := 0, searchCalls := 0 }
    else
      match env.costmap.worldToMap start.1 start.2 with
      | none =>
        { ok := false, state := st, plan := [], goal_positions := []
          mxGoal := [], myGoal := [], planXs := [], planYs := []
          rebuildCalls := 0, projectCalls := 0, searchCalls := 0 }
      | some (mx_start, my_start) =>
        if constraintChanged st position_constraint then
          let u := updateConstraintPositionsInConstraintFrame env position_constraint
          if u.1 then
            makePlanSearch env
              { st with
                position_constraint := position_constraint
                goal_positions_in_constraint_frame := u.2 }
              mx_start my_start 1
          else
            { ok := false
              state := { st with goal_positions_in_constraint_frame := u.2 }
              plan := [], goal_positions := []
              mxGoal := [], myGoal := [], planXs := [], planYs := []
              rebuildCalls := 1, projectCalls := 0, searchCalls := 0 }
        else
          makePlanSearch env st mx_start my_start 0

/-- Per-point decision of the projection loop: the cell and world point kept
for a cached region point, or `none` when the point is dropped (failed
world → map conversion, or impassable cell cost). Used to characterize
`projectPoints` as three parallel `filterMap`s over the cached region. -/
def keepCell (env : Env) (wtf : Point → Point) (p : Point) :
    Option (Nat × Nat × Point) :=
  let pw := wtf p
  match env.costmap.worldToMap pw.1 pw.2 with
  | none => none
  | some (x, y) =>
    if env.costmap.getCost x y = INSCRIBED_INFLATED_OBSTACLE ∨
        env.costmap.getCost x y = LETHAL_OBSTACLE then
      none
    else
      some (x, y, pw)

/-- Default pose used with `List.getD` when indexing a materialized plan. -/
def dummyPose : PoseStamped :=
  { stamp := 0, frame_id := "", px := 0, py := 0
    orientation := Orient.defaultO }

/-! Concrete collaborators and states used to instantiate the theorems. -/

/-- The identity rigid transform. -/
def tfId : Point → Point := fun p => p

/-- A 1×1 costmap on which every world point maps to the free cell `(0,0)`. -/
def cmFree : Costmap :=
  { sizeX := 1, sizeY := 1
    worldToMap := fun _ _ => some (0, 0)
    mapToWorld := fun _ _ => (0, 0)
    getCost := fun _ _ => 0 }

/-- A 1×1 costmap whose only cell carries the lethal-obstacle cost. -/
def cmLethal : Costmap :=
  { sizeX := 1, sizeY := 1
    worldToMap := fun _ _ => some (0, 0)
    mapToWorld := fun _ _ => (0, 0)
    getCost := fun _ _ => LETHAL_OBSTACLE }

/-- A costmap whose cell centers coincide with the cell indices; used to
exercise the heading computation of `planToWorld`. -/
def cmId : Costmap :=
  { sizeX := 10, sizeY := 10
    worldToMap := fun _ _ => some (0, 0)
    mapToWorld := fun x y => ((x : Rat), (y : Rat))
    getCost := fun _ _ => 0 }

/-- Environment whose transform provider always fails and whose search
primitive always returns an empty path. -/
def envNoTf : Env :=
  { costmap := cmFree, globalFrame := "map"
    lookupTransform := fun _ _ => none
    defaultTf := tfId
    ceInit := fun _ => true
    ceEval := fun _ _ _ => true
    planFn := fun _ _ _ _ _ => ([], [])
    now := 0 }

/-- Environment whose transform provider always fails but whose search
primitive returns the one-cell path `([0], [0])`. -/
def envNoTfPlan : Env :=
  { costmap := cmFree, globalFrame := "map"
    lookupTransform := fun _ _ => none
    defaultTf := tfId
    ceInit := fun _ => true
    ceEval := fun _ _ _ => true
    planFn := fun _ _ _ _ _ => ([0], [0])
    now := 0 }

/-- Fully functional environment: identity transforms, an always-satisfied
constraint, a free 1×1 grid, and a search primitive that finds no path. -/
def envGood : Env :=
  { costmap := cmFree, globalFrame := "map"
    lookupTransform := fun _ _ => some tfId
    defaultTf := tfId
    ceInit := fun _ => true
    ceEval := fun _ _ _ => true
    planFn := fun _ _ _ _ _ => ([], [])
    now := 0 }

/-- Like `envGood` but on the all-lethal costmap, so that every projected
goal point is filtered out. -/
def envLethal : Env :=
  { costmap := cmLethal, globalFrame := "map"
    lookupTransform := fun _ _ => some tfId
    defaultTf := tfId
    ceInit := fun _ => true
    ceEval := fun _ _ _ => true
    planFn := fun _ _ _ _ _ => ([], [])
    now := 0 }

/-- Like `envGood` but the search primitive fails in forward mode and, with
the flag set, returns the path `([3, 0], [3, 0])` — ending at cell `(0, 0)`,
which is the sole goal passed in fallback mode. -/
def envFallback : Env :=
  { costmap := cmFree, globalFrame := "map"
    lookupTransform := fun _ _ => some tfId
    defaultTf := tfId
    ceInit := fun _ => true
    ceEval := fun _ _ _ => true
    planFn := fun _ _ _ _ flag => if flag then ([3, 0], [3, 0]) else ([], [])
    now := 0 }

/-- An initialized planner whose stored constraint is `("map", "old")` and
whose cached region is the single point `(1, 1)`. -/
def stOld : PlannerState :=
  { initialized := true
    position_constraint := { frame := "map", constraint := "old" }
    goal_positions_in_constraint_frame := [(1, 1)] }

/-- An initialized planner whose stored constraint is `("beacon", "r<2")`
and whose cached region is the single point `(0, 0)`. -/
def stBeacon : PlannerState :=
  { initialized := true
    position_constraint := { frame := "beacon", constraint := "r<2" }
    goal_positions_in_constraint_frame := [(0, 0)] }

/-- A fresh constraint, differing in value from `stOld`'s stored one. -/
def pcNew : PositionConstraint := { frame := "map", constraint := "new" }

/-- A seven-cell straight path along the x axis. -/
def xs7 : List Int := [0, 1, 2, 3, 4, 5, 6]

/-- The y coordinates of `xs7`: all zero. -/
def ys7 : List Int := [0, 0, 0, 0, 0, 0, 0]

/-! Helper lemmas about the embedded operations. -/

theorem projectPoints_eq (env : Env) (wtf : Point → Point) (ps : List Point) :
    projectPoints env wtf ps =
      ((ps.filterMap (keepCell env wtf)).map fun r => r.1,
       (ps.filterMap (keepCell env wtf)).map fun r => r.2.1,
       (ps.filterMap (keepCell env wtf)).map fun r => r.2.2) := by
  induction ps with
  | nil => rfl
  | cons p rest ih =>
    simp only [projectPoints, List.filterMap_cons, keepCell]
    cases hw : env.costmap.worldToMap (wtf p).1 (wtf p).2 with
    | none => simpa [hw] using ih
    | some c =>
      obtain ⟨x, y⟩ := c
      by_cases hc : env.costmap.getCost x y = INSCRIBED_INFLATED_OBSTACLE ∨
          env.costmap.getCost x y = LETHAL_OBSTACLE
      · simpa [hw, hc] using ih
      · simp [hw, hc, ih]

theorem calculateMapConstraintArea_mx_nil (env : Env) (st : PlannerState)
    (h : (calculateMapConstraintArea env st).1 = []) :
    (calculateMapConstraintArea env st).2.2 = [] := by
  unfold calculateMapConstraintArea at h ⊢
  rw [projectPoints_eq] at h ⊢
  simp only [List.map_eq_nil_iff] at h
  simp [h]

theorem makePlanSearch_mxGoal (env : Env) (st : PlannerState)
    (mx_start my_start rc : Nat) :
    (makePlanSearch env st mx_start my_start rc).mxGoal =
      (calculateMapConstraintArea env st).1 := by
  simp only [makePlanSearch]
  split_ifs <;> rfl

theorem makePlanSearch_myGoal (env : Env) (st : PlannerState)
    (mx_start my_start rc : Nat) :
    (makePlanSearch env st mx_start my_start rc).myGoal =
      (calculateMapConstraintArea env st).2.1 := by
  simp only [makePlanSearch]
  split_ifs <;> rfl

theorem makePlanSearch_state (env : Env) (st : PlannerState)
    (mx_start my_start rc : Nat) :
    (makePlanSearch env st mx_start my_start rc).state = st := by
  simp only [makePlanSearch]
  split_ifs <;> rfl

theorem makePlanSearch_rebuildCalls (env : Env) (st : PlannerState)
    (mx_start my_start rc : Nat) :
    (makePlanSearch env st mx_start my_start rc).rebuildCalls = rc := by
  simp only [makePlanSearch]
  split_ifs <;> rfl

theorem makePlanSearch_projectCalls (env : Env) (st : PlannerState)
    (mx_start my_start rc : Nat) :
    (makePlanSearch env st mx_start my_start rc).projectCalls = 1 := by
  simp only [makePlanSearch]
  split_ifs <;> rfl

theorem makePlan_state_initialized (env : Env) (st : PlannerState)
    (start : Point) (pc : PositionConstraint) (p0 : List PoseStamped)
    (g0 : List Point) :
    (makePlan env st start pc p0 g0).state.initialized = st.initialized := by
  unfold makePlan
  split
  · rfl
  · split
    · rfl
    · split
      · rfl
      · split
        · dsimp only
          split
          · rw [makePlanSearch_state]
          · rfl
        · rw [makePlanSearch_state]

theorem makePlanSearch_goalDichotomy (env : Env) (st : PlannerState)
    (mx_start my_start rc : Nat) :
    ((makePlanSearch env st mx_start my_start rc).ok = false ∧
      (makePlanSearch env st mx_start my_start rc).searchCalls = 0) ∨
    (makePlanSearch env st mx_start my_start rc).mxGoal ≠ [] := by
  by_cases he : (calculateMapConstraintArea env st).1 = []
  · left
    constructor <;> simp [makePlanSearch, he]
  · right
    rw [makePlanSearch_mxGoal]
    exact he

theorem makePlan_goalDichotomy (env : Env) (st : PlannerState) (start : Point)
    (pc : PositionConstraint) (p0 : List PoseStamped) (g0 : List Point) :
    ((makePlan env st start pc p0 g0).ok = false ∧
      (makePlan env st start pc p0 g0).searchCalls = 0) ∨
    (makePlan env st start pc p0 g0).mxGoal ≠ [] := by
  unfold makePlan
  split
  · exact Or.inl ⟨rfl, rfl⟩
  · split
    · exact Or.inl ⟨rfl, rfl⟩
    · split
      · exact Or.inl ⟨rfl, rfl⟩
      · split
        · dsimp only
          split
          · exact makePlanSearch_goalDichotomy ..
          · exact Or.inl ⟨rfl, rfl⟩
        · exact makePlanSearch_goalDichotomy ..

theorem planToWorld_getD (env : Env) (xs ys : List Int) (i : Nat)
    (h : i < xs.length) :
    (planToWorld env xs ys).getD i dummyPose =
      { stamp := env.now, frame_id := env.globalFrame
        px := (env.costmap.mapToWorld (xs.getD i 0) (ys.getD i 0)).1
        py := (env.costmap.mapToWorld (xs.getD i 0) (ys.getD i 0)).2
        orientation := orientAt env xs ys i } := by
  simp [planToWorld, List.getD_eq_getElem?_getD, List.getElem?_map,
    List.getElem?_range, h]

theorem planToWorld_length (env : Env) (xs ys : List Int) :
    (planToWorld env xs ys).length = xs.length := by
  simp [planToWorld]

theorem makePlanSearch_fallbackShape (env : Env) (st : PlannerState)
    (mx_start my_start rc : Nat)
    (hNe : (calculateMapConstraintArea env st).1 ≠ [])
    (hFwd : (env.planFn (calculateMapConstraintArea env st).1
        (calculateMapConstraintArea env st).2.1 mx_start my_start false).1
        = []) :
    (makePlanSearch env st mx_start my_start rc).searchCalls = 2 ∧
    (makePlanSearch env st mx_start my_start rc).planXs =
      (env.planFn [mx_start] [my_start]
        ((calculateMapConstraintArea env st).1.getD
          ((calculateMapConstraintArea env st).1.length / 2) 0)
        ((calculateMapConstraintArea env st).2.1.getD
          ((calculateMapConstraintArea env st).2.1.length / 2) 0)
        true).1.reverse ∧
    (makePlanSearch env st mx_start my_start rc).planYs =
      (env.planFn [mx_start] [my_start]
        ((calculateMapConstraintArea env st).1.getD
          ((calculateMapConstraintArea env st).1.length / 2) 0)
        ((calculateMapConstraintArea env st).2.1.getD
          ((calculateMapConstraintArea env st).2.1.length / 2) 0)
        true).2.reverse ∧
    (makePlanSearch env st mx_start my_start rc).plan =
      planToWorld env (makePlanSearch env st mx_start my_start rc).planXs
        (makePlanSearch env st mx_start my_start rc).planYs := by
  simp only [makePlanSearch]
  rw [if_neg hNe, if_pos hFwd]
  exact ⟨rfl, rfl, rfl, rfl⟩

theorem makePlanSearch_failureOutputs (env : Env) (st : PlannerState)
    (mx_start my_start rc : Nat)
    (hok : (makePlanSearch env st mx_start my_start rc).ok = false) :
    (makePlanSearch env st mx_start my_start rc).plan = [] ∧
    ((makePlanSearch env st mx_start my_start rc).searchCalls = 0 →
      (makePlanSearch env st mx_start my_start rc).goal_positions = []) := by
  simp only [makePlanSearch] at hok ⊢
  split_ifs at hok ⊢ with he hf
  · exact ⟨rfl, fun _ => calculateMapConstraintArea_mx_nil env st he⟩
  · have hempty : (planToWorld env
        (env.planFn [mx_start] [my_start]
          ((calculateMapConstraintArea env st).1.getD
            ((calculateMapConstraintArea env st).1.length / 2) 0)
          ((calculateMapConstraintArea env st).2.1.getD
            ((calculateMapConstraintArea env st).2.1.length / 2) 0)
          true).1.reverse
        (env.planFn [mx_start] [my_start]
          ((calculateMapConstraintArea env st).1.getD
            ((calculateMapConstraintArea env st).1.length / 2) 0)
          ((calculateMapConstraintArea env st).2.1.getD
            ((calculateMapConstraintArea env st).2.1.length / 2) 0)
          true).2.reverse) = [] := by
      simpa [List.isEmpty_iff] using hok
    exact ⟨hempty, fun hsc => absurd hsc (by decide)⟩
  · have hempty : (planToWorld env
        (env.planFn (calculateMapConstraintArea env st).1
          (calculateMapConstraintArea env st).2.1 mx_start my_start false).1
        (env.planFn (calculateMapConstraintArea env st).1
          (calculateMapConstraintArea env st).2.1 mx_start my_start false).2)
        = [] := by
      simpa [List.isEmpty_iff] using hok
    exact ⟨hempty, fun hsc => absurd hsc (by decide)⟩

/-! Claim theorems. -/

/-- C6: for every initialized planner and every constraint whose frame and
specification string are both empty, `makePlan` returns false and the whole
planner state — in particular the cached Constraint Region and the stored
constraint value — is unmodified by the call. -/
theorem makePlan_emptySentinel_noop (env : Env) (st : PlannerState)
    (start : Point) (p0 : List PoseStamped) (g0 : List Point)
    (hInit : st.initialized = true) :
    (makePlan env st start { frame := "", constraint := "" } p0 g0).ok = false ∧
    (makePlan env st start { frame := "", constraint := "" } p0 g0).state = st := by
  constructor <;> simp [makePlan, hInit]

/-- Witness for C6 at a concrete planner state and environment. -/
theorem makePlan_emptySentinel_noop_witness :
    (makePlan envGood stOld (0, 0) { frame := "", constraint := "" } [] []).ok
        = false ∧
    (makePlan envGood stOld (0, 0) { frame := "", constraint := "" } [] []).state
        = stOld :=
  makePlan_emptySentinel_noop envGood stOld (0, 0) [] [] (by decide)

/-- C7: in a path of `n` cells materialized by `planToWorld`, the pose at
index `i` has heading `atan2` of the world displacement from cell `i` to
cell `i + 5` whenever `i + 5 < n`; when `i + 5 ≥ n` and `n > 5` it reuses
the previous pose's orientation; and when the path is shorter than the
lookahead distance every pose keeps the default orientation. -/
theorem planToWorld_orientation (env : Env) (xs ys : List Int) (i : Nat) :
    (i + 5 < xs.length →
      ((planToWorld env xs ys).getD i dummyPose).orientation =
        Orient.yawTo
          ((env.costmap.mapToWorld (xs.getD (i + 5) 0) (ys.getD (i + 5) 0)).2 -
            (env.costmap.mapToWorld (xs.getD i 0) (ys.getD i 0)).2)
          ((env.costmap.mapToWorld (xs.getD (i + 5) 0) (ys.getD (i + 5) 0)).1 -
            (env.costmap.mapToWorld (xs.getD i 0) (ys.getD i 0)).1)) ∧
    (i < xs.length → xs.length ≤ i + 5 → 5 < xs.length →
      ((planToWorld env xs ys).getD i dummyPose).orientation =
        ((planToWorld env xs ys).getD (i - 1) dummyPose).orientation) ∧
    (i < xs.length → xs.length < 5 →
      ((planToWorld env xs ys).getD i dummyPose).orientation =
        Orient.defaultO) := by
  refine ⟨?_, ?_, ?_⟩
  · intro h
    rw [planToWorld_getD env xs ys i (by omega)]
    cases i with
    | zero => simp only [orientAt, lookaheadYaw, if_pos h]
    | succ j => simp only [orientAt, lookaheadYaw, if_pos h]
  · intro hi hge h5
    cases i with
    | zero => omega
    | succ j =>
      rw [planToWorld_getD env xs ys (j + 1) hi,
        planToWorld_getD env xs ys (j + 1 - 1) (by omega)]
      simp only [Nat.add_sub_cancel]
      show orientAt env xs ys (j + 1) = orientAt env xs ys j
      simp only [orientAt]
      rw [if_neg (by omega), if_pos h5]
  · intro hi hlt
    rw [planToWorld_getD env xs ys i hi]
    cases i with
    | zero =>
      show orientAt env xs ys 0 = Orient.defaultO
      simp only [orientAt]
      rw [if_neg (by omega)]
    | succ j =>
      show orientAt env xs ys (j + 1) = Orient.defaultO
      simp only [orientAt]
      rw [if_neg (by omega), if_neg (by omega)]

/-- Witness for C7 on a concrete seven-cell path: the first pose heads
toward cell 5. -/
theorem planToWorld_orientation_witness :
    ((planToWorld envFallback xs7 ys7).getD 0 dummyPose).orientation =
      Orient.yawTo ((0 : Rat) - 0) ((0 : Rat) - 0) :=
  (planToWorld_orientation envFallback xs7 ys7 0).1 (by decide)

/-- C8: `checkPlan` returns false iff some pose of the path converts
successfully from world to grid coordinates onto a cell whose cost is one of
the two impassable sentinels; poses whose conversion fails are skipped, and
a path with no impassable pose yields true. -/
theorem checkPlan_false_iff (env : Env) (plan : List PoseStamped) :
    checkPlan env plan = false ↔
      ∃ p ∈ plan, ∃ c : Nat × Nat,
        env.costmap.worldToMap p.px p.py = some c ∧
        (env.costmap.getCost c.1 c.2 = LETHAL_OBSTACLE ∨
          env.costmap.getCost c.1 c.2 = INSCRIBED_INFLATED_OBSTACLE) := by
  induction plan with
  | nil => simp [checkPlan]
  | cons p rest ih =>
    simp only [checkPlan]
    cases hw : env.costmap.worldToMap p.px p.py with
    | none =>
      simp only [List.exists_mem_cons_iff, hw]
      rw [ih]
      simp
    | some c =>
      obtain ⟨mx, my⟩ := c
      by_cases hc : env.costmap.getCost mx my = INSCRIBED_INFLATED_OBSTACLE ∨
          env.costmap.getCost mx my = LETHAL_OBSTACLE
      · simp only [List.exists_mem_cons_iff, hw, if_pos hc]
        simp only [Option.some.injEq]
        constructor
        · intro _
          exact Or.inl ⟨(mx, my), rfl, hc.symm⟩
        · intro _
          trivial
      · simp only [List.exists_mem_cons_iff, hw, if_neg hc]
        rw [ih]
        constructor
        · intro hrest
          exact Or.inr hrest
        · rintro (⟨⟨cx, cy⟩, hceq, hcost⟩ | hrest)
          · exfalso
            obtain ⟨rfl, rfl⟩ : mx = cx ∧ my = cy := by
              injection hceq with h1
              exact ⟨congrArg Prod.fst h1, congrArg Prod.snd h1⟩
            exact hc hcost.symm
          · exact hrest

/-- C9: with a successful transform lookup, the per-call projection keeps
exactly the cached region points whose transformed world coordinates convert
to an on-grid cell with non-impassable cost: the cell coordinate lists and
the output goal world positions are the three parallel projections, in
order, of one filtered list. -/
theorem calculateMapConstraintArea_characterization (env : Env)
    (st : PlannerState) (T : Point → Point)
    (hT : env.lookupTransform env.globalFrame st.position_constraint.frame
        = some T) :
    calculateMapConstraintArea env st =
      ((st.goal_positions_in_constraint_frame.filterMap
          (keepCell env T)).map fun r => r.1,
       (st.goal_positions_in_constraint_frame.filterMap
          (keepCell env T)).map fun r => r.2.1,
       (st.goal_positions_in_constraint_frame.filterMap
          (keepCell env T)).map fun r => r.2.2) := by
  unfold calculateMapConstraintArea
  rw [hT]
  exact projectPoints_eq env T st.goal_positions_in_constraint_frame

/-- Witness for C9 on a concrete environment and cached region. -/
theorem calculateMapConstraintArea_characterization_witness :
    calculateMapConstraintArea envGood stBeacon = ([0], [0], [(0, 0)]) := by
  rw [calculateMapConstraintArea_characterization envGood stBeacon tfId rfl]
  decide

/-- C1 counterexample: with a non-empty cached region, a changed constraint
and a failing transform lookup during the rebuild, `makePlan` returns false
but the cached Constraint Region is not left as it was before the call — the
rebuild clears it before the lookup, so the previous cache is lost. -/
theorem makePlan_rebuildFailure_cex :
    (makePlan envNoTf stOld (0, 0) pcNew [] []).ok = false ∧
    stOld.goal_positions_in_constraint_frame ≠ [] ∧
    (makePlan envNoTf stOld (0, 0)
        pcNew [] []).state.goal_positions_in_constraint_frame ≠
      stOld.goal_positions_in_constraint_frame := by
  exact ⟨by decide, by decide, by decide⟩

/-- C1 (amended): when the constraint changed and the transform lookup from
the constraint frame to the global frame fails during the rebuild,
`makePlan` returns false, the cached Constraint Region is left cleared
(empty), and the stored constraint value is unchanged. -/
theorem makePlan_rebuildFailure (env : Env) (st : PlannerState)
    (start : Point) (pc : PositionConstraint) (p0 : List PoseStamped)
    (g0 : List Point)
    (hInit : st.initialized = true)
    (hSent : ¬(pc.frame = "" ∧ pc.constraint = ""))
    (hStart : (env.costmap.worldToMap start.1 start.2).isSome = true)
    (hChanged : constraintChanged st pc = true)
    (hTf : env.lookupTransform pc.frame env.globalFrame = none) :
    (makePlan env st start pc p0 g0).ok = false ∧
    (makePlan env st start pc p0
        g0).state.goal_positions_in_constraint_frame = [] ∧
    (makePlan env st start pc p0 g0).state.position_constraint =
      st.position_constraint := by
  obtain ⟨c, hc⟩ := Option.isSome_iff_exists.mp hStart
  obtain ⟨mxs, mys⟩ := c
  have hu : updateConstraintPositionsInConstraintFrame env pc = (false, []) := by
    simp [updateConstraintPositionsInConstraintFrame, hTf]
  refine ⟨?_, ?_, ?_⟩ <;> simp [makePlan, hInit, hSent, hc, hChanged, hu]

/-- Witness for the amended C1 at a concrete failing environment. -/
theorem makePlan_rebuildFailure_witness :
    (makePlan envNoTf stOld (0, 0) pcNew [] []).ok = false ∧
    (makePlan envNoTf stOld (0, 0)
        pcNew [] []).state.goal_positions_in_constraint_frame = [] ∧
    (makePlan envNoTf stOld (0, 0) pcNew [] []).state.position_constraint =
      stOld.position_constraint :=
  makePlan_rebuildFailure envNoTf stOld (0, 0) pcNew [] []
    (by decide) (by decide) (by decide) (by decide) rfl

/-- C2 (code bug): when the transform lookup from the global frame to the
constraint frame fails during the per-call projection, the code does not
produce an empty Goal Cell Set and a false return: the catch block only
logs and the loop proceeds with the default-constructed (uninitialized)
transform, so on this concrete input the Goal Cell Set is non-empty and
`makePlan` returns true. -/
theorem makePlan_projectionTfFailure_bug :
    envNoTfPlan.lookupTransform envNoTfPlan.globalFrame
        stBeacon.position_constraint.frame = none ∧
    (makePlan envNoTfPlan stBeacon (0, 0)
        stBeacon.position_constraint [] []).mxGoal ≠ [] ∧
    (makePlan envNoTfPlan stBeacon (0, 0)
        stBeacon.position_constraint [] []).ok = true := by
  exact ⟨rfl, by decide, by decide⟩

/-- C3: for an initialized planner, an on-grid start pose and a non-sentinel
constraint, if the Goal Cell Set computed by the call is empty then
`makePlan` returns false and the search primitive is never invoked in that
call. -/
theorem makePlan_emptyGoalSet_noSearch (env : Env) (st : PlannerState)
    (start : Point) (pc : PositionConstraint) (p0 : List PoseStamped)
    (g0 : List Point)
    (hInit : st.initialized = true)
    (hSent : ¬(pc.frame = "" ∧ pc.constraint = ""))
    (hStart : (env.costmap.worldToMap start.1 start.2).isSome = true)
    (hEmpty : (makePlan env st start pc p0 g0).mxGoal = []) :
    (makePlan env st start pc p0 g0).ok = false ∧
    (makePlan env st start pc p0 g0).searchCalls = 0 := by
  rcases makePlan_goalDichotomy env st start pc p0 g0 with h | h
  · exact h
  · exact absurd hEmpty h

/-- Witness for C3: on the all-lethal grid, every projected goal point is
filtered out, the call fails and the search primitive is not invoked. -/
theorem makePlan_emptyGoalSet_noSearch_witness :
    (makePlan envLethal stBeacon (0, 0)
        stBeacon.position_constraint [] []).ok = false ∧
    (makePlan envLethal stBeacon (0, 0)
        stBeacon.position_constraint [] []).searchCalls = 0 :=
  makePlan_emptyGoalSet_noSearch envLethal stBeacon (0, 0)
    stBeacon.position_constraint [] [] (by decide) (by decide) (by decide)
    (by decide)

/-- C4: when the forward search returns an empty cell path, `makePlan`
reruns the search exactly once, with the index-midpoint element of the
non-empty Goal Cell Set as the single seed, the original start cell as the
sole goal and the flag set, then reverses the resulting cell sequence; if
the fallback output ends at its goal (the search contract on success), the
final cell path's first element is the original start cell. -/
theorem makePlan_fallbackSearch (env : Env) (st : PlannerState)
    (start : Point) (pc : PositionConstraint) (p0 : List PoseStamped)
    (g0 : List Point) (mx_start my_start : Nat)
    (hInit : st.initialized = true)
    (hSent : ¬(pc.frame = "" ∧ pc.constraint = ""))
    (hStart : env.costmap.worldToMap start.1 start.2 = some (mx_start, my_start))
    (hNe : (makePlan env st start pc p0 g0).mxGoal ≠ [])
    (hFwd : (env.planFn (makePlan env st start pc p0 g0).mxGoal
        (makePlan env st start pc p0 g0).myGoal mx_start my_start false).1
        = []) :
    (makePlan env st start pc p0 g0).searchCalls = 2 ∧
    (makePlan env st start pc p0 g0).planXs =
      (env.planFn [mx_start] [my_start]
        ((makePlan env st start pc p0 g0).mxGoal.getD
          ((makePlan env st start pc p0 g0).mxGoal.length / 2) 0)
        ((makePlan env st start pc p0 g0).myGoal.getD
          ((makePlan env st start pc p0 g0).myGoal.length / 2) 0)
        true).1.reverse ∧
    (makePlan env st start pc p0 g0).planYs =
      (env.planFn [mx_start] [my_start]
        ((makePlan env st start pc p0 g0).mxGoal.getD
          ((makePlan env st start pc p0 g0).mxGoal.length / 2) 0)
        ((makePlan env st start pc p0 g0).myGoal.getD
          ((makePlan env st start pc p0 g0).myGoal.length / 2) 0)
        true).2.reverse ∧
    (makePlan env st start pc p0 g0).plan =
      planToWorld env (makePlan env st start pc p0 g0).planXs
        (makePlan env st start pc p0 g0).planYs ∧
    ((env.planFn [mx_start] [my_start]
        ((makePlan env st start pc p0 g0).mxGoal.getD
          ((makePlan env st start pc p0 g0).mxGoal.length / 2) 0)
        ((makePlan env st start pc p0 g0).myGoal.getD
          ((makePlan env st start pc p0 g0).myGoal.length / 2) 0)
        true).1.getLast? = some (Int.ofNat mx_start) →
      (env.planFn [mx_start] [my_start]
        ((makePlan env st start pc p0 g0).mxGoal.getD
          ((makePlan env st start pc p0 g0).mxGoal.length / 2) 0)
        ((makePlan env st start pc p0 g0).myGoal.getD
          ((makePlan env st start pc p0 g0).myGoal.length / 2) 0)
        true).2.getLast? = some (Int.ofNat my_start) →
      (makePlan env st start pc p0 g0).planXs.head? =
          some (Int.ofNat mx_start) ∧
        (makePlan env st start pc p0 g0).planYs.head? =
          some (Int.ofNat my_start)) := by
  have hred : makePlan env st start pc p0 g0 =
      makePlanSearch env (makePlan env st start pc p0 g0).state
        mx_start my_start (makePlan env st start pc p0 g0).rebuildCalls := by
    by_cases hch : constraintChanged st pc = true
    · by_cases hu : (updateConstraintPositionsInConstraintFrame env pc).1 = true
      · have h1 : makePlan env st start pc p0 g0 =
            makePlanSearch env
              { st with
                position_constraint := pc
                goal_positions_in_constraint_frame :=
                  (updateConstraintPositionsInConstraintFrame env pc).2 }
              mx_start my_start 1 := by
          simp [makePlan, hInit, hSent, hStart, hch, hu]
        rw [h1, makePlanSearch_state, makePlanSearch_rebuildCalls]
      · exfalso
        apply hNe
        simp [makePlan, hInit, hSent, hStart, hch, hu]
    · have h1 : makePlan env st start pc p0 g0 =
          makePlanSearch env st mx_start my_start 0 := by
        simp [makePlan, hInit, hSent, hStart, hch]
      rw [h1, makePlanSearch_state, makePlanSearch_rebuildCalls]
  rw [hred] at hNe hFwd ⊢
  rw [makePlanSearch_mxGoal] at hNe
  rw [makePlanSearch_mxGoal, makePlanSearch_myGoal] at hFwd
  rw [makePlanSearch_mxGoal, makePlanSearch_myGoal]
  obtain ⟨h2, h3, h4, h5⟩ := makePlanSearch_fallbackShape env _ mx_start
    my_start _ hNe hFwd
  refine ⟨h2, h3, h4, h5, ?_⟩
  intro hLastX hLastY
  constructor
  · rw [h3, List.head?_reverse]
    exact hLastX
  · rw [h4, List.head?_reverse]
    exact hLastY

/-- Witness for C4: forward search fails, the fallback succeeds and the
reversed path starts at the start cell. -/
theorem makePlan_fallbackSearch_witness :
    (makePlan envFallback stBeacon (0, 0)
        stBeacon.position_constraint [] []).searchCalls = 2 ∧
    (makePlan envFallback stBeacon (0, 0)
        stBeacon.position_constraint [] []).planXs.head? =
      some (Int.ofNat 0) ∧
    (makePlan envFallback stBeacon (0, 0)
        stBeacon.position_constraint [] []).planYs.head? =
      some (Int.ofNat 0) := by
  have h := makePlan_fallbackSearch envFallback stBeacon (0, 0)
    stBeacon.position_constraint [] [] 0 0 (by decide) (by decide) rfl
    (by decide) (by decide)
  obtain ⟨hx, hy⟩ := h.2.2.2.2 (by decide) (by decide)
  exact ⟨h.1, hx, hy⟩

/-- C5 counterexample: two consecutive `makePlan` calls with the identical
constraint and unchanged environment where the second call does rebuild the
Constraint Region (the first call's rebuild failed, so the constraint was
not stored). -/
theorem makePlan_secondCallRebuilds_cex :
    constraintChanged stOld pcNew = true ∧
    (makePlan envNoTf (makePlan envNoTf stOld (0, 0) pcNew [] []).state
        (0, 0) pcNew [] []).rebuildCalls = 1 := by
  exact ⟨by decide, by decide⟩

/-- C5 (amended): under the call preconditions, a `makePlan` call invokes
the Constraint Region rebuild exactly when the constraint's value differs
from the stored one; and whenever after a first call the stored constraint
equals the call's constraint (i.e. the rebuild, if invoked, succeeded), an
identical second call in an unchanged environment does not invoke the
rebuild but does recompute the Goal Cell Set. -/
theorem makePlan_rebuildOnlyOnChange (env : Env) (st : PlannerState)
    (start : Point) (pc : PositionConstraint)
    (hInit : st.initialized = true)
    (hSent : ¬(pc.frame = "" ∧ pc.constraint = ""))
    (hStart : (env.costmap.worldToMap start.1 start.2).isSome = true) :
    ((makePlan env st start pc [] []).rebuildCalls =
      if constraintChanged st pc then 1 else 0) ∧
    ((makePlan env st start pc [] []).state.position_constraint = pc →
      (makePlan env (makePlan env st start pc [] []).state
          start pc [] []).rebuildCalls = 0 ∧
      (makePlan env (makePlan env st start pc [] []).state
          start pc [] []).projectCalls = 1) := by
  obtain ⟨c, hc⟩ := Option.isSome_iff_exists.mp hStart
  obtain ⟨mxs, mys⟩ := c
  constructor
  · by_cases hch : constraintChanged st pc = true
    · rw [if_pos hch]
      by_cases hu : (updateConstraintPositionsInConstraintFrame env pc).1 = true
      · simp [makePlan, hInit, hSent, hc, hch, hu, makePlanSearch_rebuildCalls]
      · simp [makePlan, hInit, hSent, hc, hch, hu]
    · rw [if_neg hch]
      simp [makePlan, hInit, hSent, hc, hch, makePlanSearch_rebuildCalls]
  · intro hEq
    have hInit2 := makePlan_state_initialized env st start pc [] []
    generalize hst1 : (makePlan env st start pc [] []).state = st1 at hEq hInit2 ⊢
    rw [hInit] at hInit2
    have hch2 : constraintChanged st1 pc = false := by
      simp [constraintChanged, hEq]
    constructor
    · simp [makePlan, hInit2, hSent, hc, hch2, makePlanSearch_rebuildCalls]
    · simp [makePlan, hInit2, hSent, hc, hch2, makePlanSearch_projectCalls]

/-- Witness for the amended C5: a successful rebuild on the first call, no
rebuild but a fresh projection on the identical second call. -/
theorem makePlan_rebuildOnlyOnChange_witness :
    ((makePlan envGood stOld (0, 0) pcNew [] []).rebuildCalls =
      if constraintChanged stOld pcNew then 1 else 0) ∧
    ((makePlan envGood (makePlan envGood stOld (0, 0) pcNew [] []).state
        (0, 0) pcNew [] []).rebuildCalls = 0 ∧
     (makePlan envGood (makePlan envGood stOld (0, 0) pcNew [] []).state
        (0, 0) pcNew [] []).projectCalls = 1) := by
  have h := makePlan_rebuildOnlyOnChange envGood stOld (0, 0) pcNew
    (by decide) (by decide) (by decide)
  exact ⟨h.1, h.2 (by decide)⟩

/-- C10 counterexample: an initialized call that fails because both searches
come back empty returns false with a non-empty `goal_positions` output (the
filtered goal world positions were already pushed), contradicting "every
initialized call that returns false leaves both outputs empty". -/
theorem makePlan_failureOutputs_cex :
    (makePlan envGood stBeacon (0, 0)
        stBeacon.position_constraint [] []).ok = false ∧
    (makePlan envGood stBeacon (0, 0)
        stBeacon.position_constraint [] []).goal_positions ≠ [] := by
  exact ⟨by decide, by decide⟩

/-- C10 (amended): the outputs are cleared right after the initialization
check, so the uninitialized failure returns the caller's outputs untouched;
every initialized call that returns false leaves `plan` empty, and leaves
`goal_positions` empty whenever the failure occurs before the search is
invoked — the search-exhausted failure instead leaves the computed goal
world positions in `goal_positions`. -/
theorem makePlan_failureOutputs (env : Env) (st : PlannerState)
    (start : Point) (pc : PositionConstraint) (p0 : List PoseStamped)
    (g0 : List Point) :
    (st.initialized = false →
      (makePlan env st start pc p0 g0).ok = false ∧
      (makePlan env st start pc p0 g0).plan = p0 ∧
      (makePlan env st start pc p0 g0).goal_positions = g0) ∧
    (st.initialized = true → (makePlan env st start pc p0 g0).ok = false →
      (makePlan env st start pc p0 g0).plan = [] ∧
      ((makePlan env st start pc p0 g0).searchCalls = 0 →
        (makePlan env st start pc p0 g0).goal_positions = [])) := by
  constructor
  · intro h0
    refine ⟨?_, ?_, ?_⟩ <;> simp [makePlan, h0]
  · intro h1
    unfold makePlan
    split
    · next h =>
      rw [h1] at h
      simp at h
    · split
      · intro _
        exact ⟨rfl, fun _ => rfl⟩
      · split
        · intro _
          exact ⟨rfl, fun _ => rfl⟩
        · split
          · dsimp only
            split
            · exact fun hok => makePlanSearch_failureOutputs env _ _ _ _ hok
            · intro _
              exact ⟨rfl, fun _ => rfl⟩
          · exact fun hok => makePlanSearch_failureOutputs env _ _ _ _ hok

/-- Witness for the amended C10: an initialized search-exhausted failure has
an empty `plan` output. -/
theorem makePlan_failureOutputs_witness :
    (makePlan envGood stBeacon (0, 0)
        stBeacon.position_constraint [] []).plan = [] :=
  (((makePlan_failureOutputs envGood stBeacon (0, 0)
      stBeacon.position_constraint [] []).2 (by decide)) (by decide)).1

end CBNav
